import Mathlib

/-!
Shallow embedding of the `taskmanager-rust` repository (src/project.rs,
src/cli.rs, src/config.rs) and proofs about its specification.

Modelling conventions:
* `Uuid` is modelled as `Nat`; `Uuid::new_v4()` is a random generator, so each
  operation that generates an identifier takes the generated value as an
  explicit `freshId` argument (an oracle input).
* Rust's `HashMap<Uuid, V>` is modelled as an association list with the three
  operations the code uses: lookup (`get` / `get_mut`), insert (replacing any
  entry at the same key), and removal of the entry at a key.
* A Rust `Result` is an `Outcome`: `ok`, `err` (a returned `Err`), or `panic`
  (a call to `unwrap()` on `None`, which aborts the process and returns
  nothing).
* File I/O is abstracted by `FileState`: the backing file is absent, present
  but unparseable, or parses to a given projects map.
* Console output is modelled (as a list of printed lines) only where a claim
  refers to it (the config commands).
-/

set_option autoImplicit false

namespace TaskManager

/-- Model of `uuid::Uuid` (128-bit identifiers modelled as `Nat`). -/
abbrev Uuid := Nat

/-- Value of a decimal digit character, `none` on any other character. -/
def decimalDigit? (c : Char) : Option Nat :=
  if c = '0' then some 0
  else if c = '1' then some 1
  else if c = '2' then some 2
  else if c = '3' then some 3
  else if c = '4' then some 4
  else if c = '5' then some 5
  else if c = '6' then some 6
  else if c = '7' then some 7
  else if c = '8' then some 8
  else if c = '9' then some 9
  else none

/-- Reads a nonempty run of decimal digits as a number, `none` on any
malformed input. -/
def parseDecimal : List Char → Nat → Option Nat
  | [], acc => some acc
  | c :: cs, acc =>
    match decimalDigit? c with
    | none => none
    | some d => parseDecimal cs (acc * 10 + d)

/-- Model of `Uuid::parse_str`: parsing an identifier from its string form,
failing on malformed input (the error the dispatch layer propagates for it is
`InvalidIdentifier`).  Identifier syntax is abstracted to decimal numerals:
`parse_str s` succeeds exactly when `s` is a numeral, i.e. the string form of
an identifier. -/
def Uuid.parse_str (s : String) : Option Uuid :=
  match s.data with
  | [] => none
  | c :: cs => parseDecimal (c :: cs) 0

/-- Association-list model of `HashMap` lookup (`HashMap::get`). -/
def mapGet {α : Type} : List (Uuid × α) → Uuid → Option α
  | [], _ => none
  | (k', v) :: rest, k => if k' = k then some v else mapGet rest k

/-- Association-list model of `HashMap::insert`: replaces the entry at the key
in place, or appends a new entry. -/
def mapInsert {α : Type} : List (Uuid × α) → Uuid → α → List (Uuid × α)
  | [], k, v => [(k, v)]
  | (k', v') :: rest, k, v =>
    if k' = k then (k, v) :: rest else (k', v') :: mapInsert rest k v

/-- Association-list model of the state change of `HashMap::remove`: the map
with every entry at the key removed (keys are unique in a `HashMap`, so this
agrees with removing the single entry). -/
def eraseKey {α : Type} : List (Uuid × α) → Uuid → List (Uuid × α)
  | [], _ => []
  | (k', v) :: rest, k =>
    if k' = k then eraseKey rest k else (k', v) :: eraseKey rest k

theorem mapGet_mapInsert_self {α : Type} (m : List (Uuid × α)) (k : Uuid) (v : α) :
    mapGet (mapInsert m k v) k = some v := by
  induction m with
  | nil => simp [mapInsert, mapGet]
  | cons hd tl ih =>
    obtain ⟨k', v'⟩ := hd
    by_cases h : k' = k
    · simp [mapInsert, h, mapGet]
    · simp [mapInsert, h, mapGet, ih]

theorem mapGet_mapInsert_ne {α : Type} (m : List (Uuid × α)) (k : Uuid) (v : α)
    (j : Uuid) (hj : j ≠ k) : mapGet (mapInsert m k v) j = mapGet m j := by
  have hkj : k ≠ j := Ne.symm hj
  induction m with
  | nil => simp [mapInsert, mapGet, hkj]
  | cons hd tl ih =>
    obtain ⟨k', v'⟩ := hd
    by_cases h : k' = k
    · subst h
      simp [mapInsert, mapGet, hkj]
    · simp only [mapInsert, if_neg h, mapGet]
      rw [ih]

theorem mapGet_eraseKey_self {α : Type} (m : List (Uuid × α)) (k : Uuid) :
    mapGet (eraseKey m k) k = none := by
  induction m with
  | nil => simp [eraseKey, mapGet]
  | cons hd tl ih =>
    obtain ⟨k', v'⟩ := hd
    by_cases h : k' = k
    · simp [eraseKey, h, ih]
    · simp [eraseKey, h, mapGet, ih]

theorem mapGet_eraseKey_ne {α : Type} (m : List (Uuid × α)) (k : Uuid)
    (j : Uuid) (hj : j ≠ k) : mapGet (eraseKey m k) j = mapGet m j := by
  have hkj : k ≠ j := Ne.symm hj
  induction m with
  | nil => simp [eraseKey]
  | cons hd tl ih =>
    obtain ⟨k', v'⟩ := hd
    by_cases h : k' = k
    · subst h
      simp [eraseKey, mapGet, hkj, ih]
    · simp only [eraseKey, if_neg h, mapGet]
      rw [ih]

/-- Outcome of a Rust operation: a returned `Ok`, a returned `Err`, or a panic
(`unwrap()` on `None`), which aborts the process. -/
inductive Outcome (ε α : Type) where
  | ok (a : α)
  | err (e : ε)
  | panic (msg : String)
deriving DecidableEq, Repr

/-- Errors returned (not panicked) by the command layer: a `uuid` parse error
propagated by `?`, or an `io::Error` of kind `NotFound` carrying the message
built at the failure site (`"Project not found"` / `"Task not found"`). -/
inductive CmdError where
  | invalidIdentifier
  | notFound (msg : String)
deriving DecidableEq, Repr

/-- `ProjectTaskType` from `project.rs`: the single supported task type. -/
inductive ProjectTaskType where
  | Default
deriving DecidableEq, Repr

/-- `ProjectTaskType::from_str` (project.rs): only `"default"` is recognized;
every other input is `Err(())`, modelled as `none`. -/
def ProjectTaskType.from_str (input : String) : Option ProjectTaskType :=
  if input = "default" then some ProjectTaskType.Default
  else none

/-- `ProjectTaskStatus` from `project.rs`. -/
inductive ProjectTaskStatus where
  | Default
  | Todo
  | InProgress
  | Complete
deriving DecidableEq, Repr

/-- `ProjectTaskStatus::from_str` (project.rs): recognizes `"todo"`,
`"in_progress"` and `"complete"`; the catch-all arm returns
`Ok(ProjectTaskStatus::Default)`, so this parse never fails. -/
def ProjectTaskStatus.from_str (input : String) : Option ProjectTaskStatus :=
  if input = "todo" then some ProjectTaskStatus.Todo
  else if input = "in_progress" then some ProjectTaskStatus.InProgress
  else if input = "complete" then some ProjectTaskStatus.Complete
  else some ProjectTaskStatus.Default

/-- `ProjectTask` from `project.rs`. -/
structure ProjectTask where
  id : Uuid
  name : String
  description : String
  type_ : ProjectTaskType
  status : ProjectTaskStatus
deriving DecidableEq, Repr

/-- `ProjectTask::new` (project.rs): parses the type and status strings,
falling back to `Default` when the type parse errs and to `Todo` when the
status parse errs; the id is the freshly generated `Uuid::new_v4()`, passed
here as `freshId`. -/
def ProjectTask.new (freshId : Uuid) (name description type_ status : String) :
    ProjectTask :=
  let task_type :=
    match ProjectTaskType.from_str type_ with
    | some task_type => task_type
    | none => ProjectTaskType.Default
  let task_status :=
    match ProjectTaskStatus.from_str status with
    | some task_status => task_status
    | none => ProjectTaskStatus.Todo
  { id := freshId, name := name, description := description,
    type_ := task_type, status := task_status }

/-- `Project` from `project.rs`. -/
structure Project where
  id : Uuid
  name : String
  description : String
  tasks : List (Uuid × ProjectTask)
deriving DecidableEq, Repr

/-- `Project::new` (project.rs): fresh id, given name/description, empty task
map. -/
def Project.new (freshId : Uuid) (name description : String) : Project :=
  { id := freshId, name := name, description := description, tasks := [] }

/-- `Project::create_task` (project.rs): builds the task with the fixed
literals `"default"` / `"todo"`, inserts it under its id, and returns the id. -/
def Project.create_task (p : Project) (freshId : Uuid)
    (name description : String) : Uuid × Project :=
  let task := ProjectTask.new freshId name description "default" "todo"
  let task_id := task.id
  (task_id, { p with tasks := mapInsert p.tasks task_id task })

/-- `Project::destroy_task` (project.rs): `self.tasks.remove(task_id).unwrap()`
panics when the task is absent; otherwise the entry is removed and `Ok(true)`
is returned. -/
def Project.destroy_task (p : Project) (task_id : Uuid) :
    Outcome CmdError (Bool × Project) :=
  match mapGet p.tasks task_id with
  | none => Outcome.panic "called Option::unwrap() on a None value"
  | some _ => Outcome.ok (true, { p with tasks := eraseKey p.tasks task_id })

/-- `ProjectData` from `project.rs`: the aggregate map of projects. -/
structure ProjectData where
  projects : List (Uuid × Project)
deriving DecidableEq, Repr

/-- `ProjectData::create_project` (project.rs): builds the project, inserts it
under its id, and returns the id. -/
def ProjectData.create_project (pd : ProjectData) (freshId : Uuid)
    (name description : String) : Uuid × ProjectData :=
  let project := Project.new freshId name description
  let project_id := project.id
  (project_id, { projects := mapInsert pd.projects project_id project })

/-- `ProjectData::destroy_project` (project.rs):
`self.projects.remove(project_id).unwrap()` panics when the project is absent;
otherwise the entry (the project with all its tasks) is removed and `Ok(true)`
is returned. -/
def ProjectData.destroy_project (pd : ProjectData) (project_id : Uuid) :
    Outcome CmdError (Bool × ProjectData) :=
  match mapGet pd.projects project_id with
  | none => Outcome.panic "called Option::unwrap() on a None value"
  | some _ => Outcome.ok (true, { projects := eraseKey pd.projects project_id })

/-- Modelled from the spec: the accessor `ProjectData::get_project_mut` /
`get_project` used by `cli.rs` is not among the source files (only its
callers are).  Per the spec the collection is a "mapping from project
identifier to Project", so the accessor is the map lookup at the identifier —
exactly how the dispatch in `project.rs` reads `projects.get_mut(&uuid)`
directly. -/
def ProjectData.get_project (pd : ProjectData) (project_id : Uuid) :
    Option Project :=
  mapGet pd.projects project_id

/-- Errors from `load_projects` (project.rs): a parse failure on an existing
file, named `CorruptStore` by the spec. -/
inductive LoadError where
  | corruptStore
deriving DecidableEq, Repr

/-- Abstract state of the backing `projects.json` file: absent, present but
unparseable, or parsing to a given projects map. -/
inductive FileState where
  | absent
  | invalid
  | valid (projects : List (Uuid × Project))
deriving DecidableEq, Repr

/-- `load_projects` (project.rs): a missing file yields an empty map (not an
error); an unparseable file propagates the parse error; otherwise the parsed
map is returned. -/
def load_projects : FileState → Except LoadError (List (Uuid × Project))
  | FileState.absent => Except.ok []
  | FileState.invalid => Except.error LoadError.corruptStore
  | FileState.valid projects => Except.ok projects

/-- `load_data` (project.rs): wraps the loaded map into `ProjectData`. -/
def load_data (fs : FileState) : Except LoadError ProjectData :=
  match load_projects fs with
  | Except.ok projects => Except.ok { projects := projects }
  | Except.error e => Except.error e

/-- `PersistenceMode` from `config.rs`: single variant `JSON`. -/
inductive PersistenceMode where
  | JSON
deriving DecidableEq, Repr

/-- Debug rendering of a `PersistenceMode` (the `{:?}` formatting used by
`config get`). -/
def PersistenceMode.debugRepr : PersistenceMode → String
  | PersistenceMode.JSON => "JSON"

/-- `Config` from `config.rs`. -/
structure Config where
  persistence_mode : PersistenceMode
deriving DecidableEq, Repr

/-- `Config::default` (config.rs). -/
def Config.default : Config :=
  { persistence_mode := PersistenceMode.JSON }

/-- The project subcommands of `cli.rs` (`ProjectCommand`), post argument
parsing. -/
inductive ProjectCommand where
  | create (name : String) (description : Option String)
  | destroy (project_id : String)
  | update (project_id : String) (name : Option String) (description : Option String)
  | list
  | createTask (project_id : String) (name : String) (description : Option String)
  | destroyTask (project_id : String) (task_id : String)
  | updateTask (project_id : String) (task_id : String) (name : Option String) (description : Option String)
  | listTasks (project_id : String)
deriving DecidableEq, Repr

/-- The config subcommands of `cli.rs` (`ConfigCommand`). -/
inductive ConfigCommand where
  | get (key : String)
  | set (key : String) (value : String)
deriving DecidableEq, Repr

/-- The command namespaces of `cli.rs` (`Namespace`). -/
inductive CmdNamespace where
  | project (cmd : ProjectCommand)
  | config (cmd : ConfigCommand)
deriving DecidableEq, Repr

namespace RuntimeConfig

/-- `RuntimeConfig::run_config_command` (cli.rs): both branches only print —
the configuration value is returned unchanged alongside the printed lines,
and the Rust function always returns `Ok(())`. -/
def run_config_command (cfg : Config) (cmd : ConfigCommand) :
    Config × List String :=
  match cmd with
  | ConfigCommand.get key =>
    if key = "persistence_mode" then
      (cfg, ["Persistence Mode: " ++ cfg.persistence_mode.debugRepr])
    else
      (cfg, ["Invalid config key"])
  | ConfigCommand.set key value =>
    (cfg, ["Setting config key: " ++ key ++ " to value: " ++ value])

/-- `RuntimeConfig::run_project_command` (cli.rs): parses identifier strings,
dispatches to the domain operations, and returns the updated `ProjectData` on
success.  `freshId` is the `Uuid::new_v4()` value generated during the
command, passed as an oracle input (at most one identifier is generated per
command). -/
def run_project_command (pd : ProjectData) (freshId : Uuid)
    (cmd : ProjectCommand) : Outcome CmdError ProjectData :=
  match cmd with
  | ProjectCommand.create name description =>
    let project_description := description.getD ""
    Outcome.ok (pd.create_project freshId name project_description).2
  | ProjectCommand.destroy project_id =>
    match Uuid.parse_str project_id with
    | none => Outcome.err CmdError.invalidIdentifier
    | some project_uuid =>
      match pd.destroy_project project_uuid with
      | Outcome.ok (_, pd') => Outcome.ok pd'
      | Outcome.err e => Outcome.err e
      | Outcome.panic m => Outcome.panic m
  | ProjectCommand.update project_id name description =>
    match Uuid.parse_str project_id with
    | none => Outcome.err CmdError.invalidIdentifier
    | some project_uuid =>
      match pd.get_project project_uuid with
      | none => Outcome.err (CmdError.notFound "Project not found")
      | some project =>
        let project :=
          match name with
          | some n => { project with name := n }
          | none => project
        let project :=
          match description with
          | some d => { project with description := d }
          | none => project
        Outcome.ok { projects := mapInsert pd.projects project_uuid project }
  | ProjectCommand.list => Outcome.ok pd
  | ProjectCommand.createTask project_id name description =>
    match Uuid.parse_str project_id with
    | none => Outcome.err CmdError.invalidIdentifier
    | some project_uuid =>
      let task_description := description.getD ""
      match pd.get_project project_uuid with
      | none => Outcome.err (CmdError.notFound "Project not found")
      | some project =>
        let project' := (project.create_task freshId name task_description).2
        Outcome.ok { projects := mapInsert pd.projects project_uuid project' }
  | ProjectCommand.destroyTask project_id task_id =>
    match Uuid.parse_str project_id with
    | none => Outcome.err CmdError.invalidIdentifier
    | some project_uuid =>
      match Uuid.parse_str task_id with
      | none => Outcome.err CmdError.invalidIdentifier
      | some task_uuid =>
        match pd.get_project project_uuid with
        | none => Outcome.err (CmdError.notFound "Project not found")
        | some project =>
          match project.destroy_task task_uuid with
          | Outcome.ok (_, project') =>
            Outcome.ok { projects := mapInsert pd.projects project_uuid project' }
          | Outcome.err e => Outcome.err e
          | Outcome.panic m => Outcome.panic m
  | ProjectCommand.updateTask project_id task_id name description =>
    match Uuid.parse_str project_id with
    | none => Outcome.err CmdError.invalidIdentifier
    | some project_uuid =>
      match Uuid.parse_str task_id with
      | none => Outcome.err CmdError.invalidIdentifier
      | some task_uuid =>
        match pd.get_project project_uuid with
        | none => Outcome.err (CmdError.notFound "Project not found")
        | some project =>
          match mapGet project.tasks task_uuid with
          | none => Outcome.err (CmdError.notFound "Task not found")
          | some task =>
            let task :=
              match name with
              | some n => { task with name := n }
              | none => task
            let task :=
              match description with
              | some d => { task with description := d }
              | none => task
            let project' := { project with tasks := mapInsert project.tasks task_uuid task }
            Outcome.ok { projects := mapInsert pd.projects project_uuid project' }
  | ProjectCommand.listTasks project_id =>
    match Uuid.parse_str project_id with
    | none => Outcome.err CmdError.invalidIdentifier
    | some project_uuid =>
      match pd.get_project project_uuid with
      | none => Outcome.err (CmdError.notFound "Project not found")
      | some _ => Outcome.ok pd

/-- `RuntimeConfig::run` (cli.rs): dispatches the namespace command; on an
`Ok` dispatch it calls `persist` (which hands the full current `ProjectData`
snapshot to `write_data`), on an `Err` it returns the error without
persisting; a panic aborts before any persist.  The second component records
the snapshot handed to `write_data`, `none` when nothing was written. -/
def run (cfg : Config) (pd : ProjectData) (freshId : Uuid)
    (ns : CmdNamespace) :
    Outcome CmdError (Config × ProjectData) × Option ProjectData :=
  match ns with
  | CmdNamespace.project cmd =>
    match run_project_command pd freshId cmd with
    | Outcome.ok pd' => (Outcome.ok (cfg, pd'), some pd')
    | Outcome.err e => (Outcome.err e, none)
    | Outcome.panic m => (Outcome.panic m, none)
  | CmdNamespace.config cmd =>
    let result := run_config_command cfg cmd
    (Outcome.ok (result.1, pd), some pd)

end RuntimeConfig

/-- The spec's classification of commands as mutating (create / destroy /
update of projects or tasks) versus non-mutating queries (`list`,
`list-tasks`) and the config namespace (`get`, and `set`, which the spec
calls a no-op placeholder).  This definition follows the SPEC's words, for
comparison with what `RuntimeConfig.run` actually persists. -/
def CmdNamespace.isMutatingSpec : CmdNamespace → Bool
  | CmdNamespace.project (ProjectCommand.create _ _) => true
  | CmdNamespace.project (ProjectCommand.destroy _) => true
  | CmdNamespace.project (ProjectCommand.update _ _ _) => true
  | CmdNamespace.project ProjectCommand.list => false
  | CmdNamespace.project (ProjectCommand.createTask _ _ _) => true
  | CmdNamespace.project (ProjectCommand.destroyTask _ _) => true
  | CmdNamespace.project (ProjectCommand.updateTask _ _ _ _) => true
  | CmdNamespace.project (ProjectCommand.listTasks _) => false
  | CmdNamespace.config _ => false

/-- Concrete task used in concrete witnesses. -/
def sampleTask : ProjectTask :=
  ProjectTask.new 1 "t" "" "default" "todo"

/-- Concrete one-task project used in concrete witnesses. -/
def sampleProject : Project :=
  { id := 0, name := "A", description := "", tasks := [(1, sampleTask)] }

/-- Concrete one-project collection used in concrete witnesses. -/
def samplePD : ProjectData :=
  { projects := [(0, sampleProject)] }

theorem length_mapInsert_fresh {α : Type} (m : List (Uuid × α)) (k : Uuid)
    (v : α) (h : mapGet m k = none) :
    (mapInsert m k v).length = m.length + 1 := by
  induction m with
  | nil => simp [mapInsert]
  | cons hd tl ih =>
    obtain ⟨k', v'⟩ := hd
    by_cases hk : k' = k
    · simp [mapGet, hk] at h
    · simp only [mapGet, if_neg hk] at h
      simp [mapInsert, hk, ih h]

/-- C7: `load_projects` on a nonexistent backing file yields an empty
collection (not an error), and on an existing but unparseable file fails with
`CorruptStore`; the same holds through `load_data`. -/
theorem load_projects_spec :
    load_projects FileState.absent = Except.ok [] ∧
    load_data FileState.absent = Except.ok { projects := [] } ∧
    load_projects FileState.invalid = Except.error LoadError.corruptStore ∧
    load_data FileState.invalid = Except.error LoadError.corruptStore := by
  refine ⟨rfl, rfl, rfl, rfl⟩

/-- C1: evaluation of the code at the failing input.  Destroying an absent
project id does not fail with a `NotFound` error as the claim states —
`projects.remove(id).unwrap()` panics on the empty collection, while the
function's `Result` error channel (and the `?` at its call site in the
dispatch) is never used. -/
theorem destroy_project_absent_panics :
    ProjectData.destroy_project { projects := [] } 0 =
      Outcome.panic "called Option::unwrap() on a None value" ∧
    ProjectData.destroy_project { projects := [] } 0 ≠
      Outcome.err (CmdError.notFound "Project not found") := by
  exact ⟨rfl, by decide⟩

/-- Behavior of `destroy_project(id)` as implemented: it panics (the process
aborts on `unwrap()` of `None`) when `id` is absent, rather than failing with
`NotFound`; for every `id` present it removes that project together with all
of its tasks atomically — the project id resolves to nothing afterwards and
every other project is exactly as before, with no partial removal
observable. -/
theorem destroy_project_spec (pd : ProjectData) (i : Uuid) :
    (mapGet pd.projects i = none →
      pd.destroy_project i =
        Outcome.panic "called Option::unwrap() on a None value") ∧
    (∀ p, mapGet pd.projects i = some p →
      pd.destroy_project i =
        Outcome.ok (true, { projects := eraseKey pd.projects i }) ∧
      mapGet (eraseKey pd.projects i) i = none ∧
      (∀ j, j ≠ i → mapGet (eraseKey pd.projects i) j = mapGet pd.projects j)) := by
  constructor
  · intro h
    simp [ProjectData.destroy_project, h]
  · intro p hp
    refine ⟨?_, mapGet_eraseKey_self _ _, fun j hj => mapGet_eraseKey_ne _ _ _ hj⟩
    simp [ProjectData.destroy_project, hp]

/-- Witness for `destroy_project_spec` at a one-project collection. -/
theorem destroy_project_spec_witness :
    mapGet (ProjectData.mk [(5, Project.new 5 "A" "d")]).projects 5 =
      some (Project.new 5 "A" "d") ∧
    ProjectData.destroy_project (ProjectData.mk [(5, Project.new 5 "A" "d")]) 5 =
      Outcome.ok (true, { projects := eraseKey [(5, Project.new 5 "A" "d")] 5 }) :=
  ⟨by decide,
   ((destroy_project_spec (ProjectData.mk [(5, Project.new 5 "A" "d")]) 5).2
     (Project.new 5 "A" "d") (by decide)).1⟩

/-- C3, counterexample to the claim as stated: an unrecognized task status
string at construction time yields the `Default` status, not `Todo` — the
status parse never errs (its catch-all arm is `Ok(Default)`), so the
`Err => Todo` fallback in `ProjectTask::new` is unreachable. -/
theorem task_status_fallback_is_default :
    (ProjectTask.new 0 "n" "d" "default" "bogus").status =
      ProjectTaskStatus.Default ∧
    (ProjectTask.new 0 "n" "d" "default" "bogus").status ≠
      ProjectTaskStatus.Todo := by
  exact ⟨by decide, by decide⟩

/-- C3 (amended): the task type at construction is always `Default` (an
unrecognized type string errs in `from_str` and falls back to `Default`;
`"default"` is the only recognized type); recognized status strings map to
their corresponding variants, while an unrecognized status string yields the
`Default` status (not `Todo`) because the status parse is total; construction
never fails with an error. -/
theorem task_parse_lenient (i : Uuid) (n d ty st : String) :
    ((ProjectTask.new i n d ty st).type_ = ProjectTaskType.Default) ∧
    (ty ≠ "default" → ProjectTaskType.from_str ty = none) ∧
    (ProjectTaskType.from_str "default" = some ProjectTaskType.Default) ∧
    ((ProjectTask.new i n d ty "todo").status = ProjectTaskStatus.Todo) ∧
    ((ProjectTask.new i n d ty "in_progress").status = ProjectTaskStatus.InProgress) ∧
    ((ProjectTask.new i n d ty "complete").status = ProjectTaskStatus.Complete) ∧
    (st ≠ "todo" → st ≠ "in_progress" → st ≠ "complete" →
      (ProjectTask.new i n d ty st).status = ProjectTaskStatus.Default) ∧
    (∃ x, ProjectTaskStatus.from_str st = some x) := by
  refine ⟨?_, ?_, rfl, ?_, ?_, ?_, ?_, ?_⟩
  · simp only [ProjectTask.new]
  · intro h
    simp [ProjectTaskType.from_str, h]
  · simp [ProjectTask.new, ProjectTaskStatus.from_str]
  · simp [ProjectTask.new, ProjectTaskStatus.from_str]
  · simp [ProjectTask.new, ProjectTaskStatus.from_str]
  · intro h1 h2 h3
    simp [ProjectTask.new, ProjectTaskStatus.from_str, h1, h2, h3]
  · unfold ProjectTaskStatus.from_str
    split_ifs <;> exact ⟨_, rfl⟩

/-- C3, witness: the amended theorem applied at concrete unrecognized type and
status strings. -/
theorem task_parse_lenient_witness :
    ("mystery" ≠ "default") ∧
    ("bogus" ≠ "todo") ∧
    ((ProjectTask.new 3 "n" "d" "mystery" "bogus").type_ = ProjectTaskType.Default) ∧
    (ProjectTaskType.from_str "mystery" = none) := by
  have h := task_parse_lenient 3 "n" "d" "mystery" "bogus"
  exact ⟨by decide, by decide, h.1, h.2.1 (by decide)⟩

/-- C2: evaluation of the code at the failing input.  With the project
present but the task absent, `destroy_task` does not fail with a distinct
`NotFound` error as the claim states — `tasks.remove(task_id).unwrap()`
panics, while the dispatch handles the absent-project half of the same
command with a returned `NotFound`. -/
theorem destroy_task_absent_task_panics :
    RuntimeConfig.run_project_command
      { projects := [(0, { id := 0, name := "A", description := "", tasks := [] })] }
      9 (ProjectCommand.destroyTask "0" "1") =
      Outcome.panic "called Option::unwrap() on a None value" ∧
    RuntimeConfig.run_project_command
      { projects := [(0, { id := 0, name := "A", description := "", tasks := [] })] }
      9 (ProjectCommand.destroyTask "0" "1") ≠
      Outcome.err (CmdError.notFound "Task not found") := by
  exact ⟨by decide, by decide⟩

/-- Behavior of `destroy_task(project_id, task_id)` as implemented: it fails
with the `NotFound` (project) error when the project is absent; when the
project exists but the task is absent it panics (the process aborts on
`unwrap()` of `None`) instead of returning a distinct task `NotFound` error;
it succeeds exactly when both exist, removing that task and leaving every
other task and project unchanged. -/
theorem destroy_task_spec (pd : ProjectData) (fid i t : Uuid) (ps ts : String)
    (hp : Uuid.parse_str ps = some i) (ht : Uuid.parse_str ts = some t) :
    (pd.get_project i = none →
      RuntimeConfig.run_project_command pd fid (ProjectCommand.destroyTask ps ts) =
        Outcome.err (CmdError.notFound "Project not found")) ∧
    (∀ p, pd.get_project i = some p → mapGet p.tasks t = none →
      RuntimeConfig.run_project_command pd fid (ProjectCommand.destroyTask ps ts) =
        Outcome.panic "called Option::unwrap() on a None value") ∧
    (∀ p task, pd.get_project i = some p → mapGet p.tasks t = some task →
      RuntimeConfig.run_project_command pd fid (ProjectCommand.destroyTask ps ts) =
        Outcome.ok { projects := mapInsert pd.projects i { p with tasks := eraseKey p.tasks t } } ∧
      mapGet (eraseKey p.tasks t) t = none ∧
      (∀ j, j ≠ t → mapGet (eraseKey p.tasks t) j = mapGet p.tasks j) ∧
      (∀ j, j ≠ i →
        mapGet (mapInsert pd.projects i { p with tasks := eraseKey p.tasks t }) j =
          mapGet pd.projects j)) := by
  refine ⟨?_, ?_, ?_⟩
  · intro h
    simp [RuntimeConfig.run_project_command, hp, ht, h]
  · intro p hpp htt
    simp [RuntimeConfig.run_project_command, hp, ht, hpp, Project.destroy_task, htt]
  · intro p task hpp htt
    refine ⟨?_, mapGet_eraseKey_self _ _, fun j hj => mapGet_eraseKey_ne _ _ _ hj,
      fun j hj => mapGet_mapInsert_ne _ _ _ _ hj⟩
    simp [RuntimeConfig.run_project_command, hp, ht, hpp, Project.destroy_task, htt]

/-- Witness for `destroy_task_spec` with both the project and the task
present. -/
theorem destroy_task_spec_witness :
    Uuid.parse_str "0" = some 0 ∧
    Uuid.parse_str "1" = some 1 ∧
    samplePD.get_project 0 = some sampleProject ∧
    mapGet sampleProject.tasks 1 = some sampleTask ∧
    RuntimeConfig.run_project_command samplePD 9 (ProjectCommand.destroyTask "0" "1") =
      Outcome.ok { projects := mapInsert samplePD.projects 0 { sampleProject with tasks := eraseKey sampleProject.tasks 1 } } :=
  ⟨by decide, by decide, by decide, by decide,
   ((destroy_task_spec samplePD 9 0 1 "0" "1" (by decide) (by decide)).2.2
     sampleProject sampleTask (by decide) (by decide)).1⟩

/-- C6: `create_project(name, description)` always succeeds (it is total),
returns the generated identifier, and — the generated identifier being fresh,
i.e. not already present in the collection — the project retrievable by the
returned identifier has exactly that name and description and an empty task
set, the collection has grown by exactly one entry, and every pre-existing
project is unchanged. -/
theorem create_project_spec (pd : ProjectData) (fid : Uuid) (n d : String)
    (hfresh : mapGet pd.projects fid = none) :
    (pd.create_project fid n d).1 = fid ∧
    mapGet (pd.create_project fid n d).2.projects fid = some (Project.new fid n d) ∧
    (Project.new fid n d).name = n ∧
    (Project.new fid n d).description = d ∧
    (Project.new fid n d).tasks = [] ∧
    ((pd.create_project fid n d).2.projects).length = pd.projects.length + 1 ∧
    (∀ j, j ≠ fid →
      mapGet (pd.create_project fid n d).2.projects j = mapGet pd.projects j) := by
  refine ⟨rfl, ?_, rfl, rfl, rfl, ?_, ?_⟩
  · exact mapGet_mapInsert_self pd.projects fid (Project.new fid n d)
  · exact length_mapInsert_fresh pd.projects fid (Project.new fid n d) hfresh
  · exact fun j hj => mapGet_mapInsert_ne pd.projects fid (Project.new fid n d) j hj

/-- C6, witness: the theorem applied at the empty collection. -/
theorem create_project_spec_witness :
    mapGet (ProjectData.mk []).projects 0 = none ∧
    mapGet ((ProjectData.mk []).create_project 0 "Alpha" "desc A").2.projects 0 =
      some (Project.new 0 "Alpha" "desc A") :=
  ⟨by decide, (create_project_spec (ProjectData.mk []) 0 "Alpha" "desc A" (by decide)).2.1⟩

/-- C8: `create_task(project_id, name, description)` fails with `NotFound`
when the project is absent; when the project exists it adds the task under
the generated identifier (exactly one new entry when that identifier is
fresh), built from the fixed literals `"default"` / `"todo"` regardless of
caller input — so its type is the single supported `Default` variant and its
status is `Todo` — and `Project::create_task` returns the new task's
identifier; every other task and every other project is unchanged. -/
theorem create_task_spec (pd : ProjectData) (fid i : Uuid) (s n : String)
    (d : Option String) (hs : Uuid.parse_str s = some i) :
    (pd.get_project i = none →
      RuntimeConfig.run_project_command pd fid (ProjectCommand.createTask s n d) =
        Outcome.err (CmdError.notFound "Project not found")) ∧
    (∀ p, pd.get_project i = some p →
      (p.create_task fid n (d.getD "")).1 = fid ∧
      RuntimeConfig.run_project_command pd fid (ProjectCommand.createTask s n d) =
        Outcome.ok { projects := mapInsert pd.projects i (p.create_task fid n (d.getD "")).2 } ∧
      mapGet (p.create_task fid n (d.getD "")).2.tasks fid =
        some (ProjectTask.new fid n (d.getD "") "default" "todo") ∧
      (ProjectTask.new fid n (d.getD "") "default" "todo").type_ =
        ProjectTaskType.Default ∧
      (ProjectTask.new fid n (d.getD "") "default" "todo").status =
        ProjectTaskStatus.Todo ∧
      (mapGet p.tasks fid = none →
        ((p.create_task fid n (d.getD "")).2.tasks).length = p.tasks.length + 1) ∧
      (∀ j, j ≠ fid →
        mapGet (p.create_task fid n (d.getD "")).2.tasks j = mapGet p.tasks j) ∧
      (∀ j, j ≠ i →
        mapGet (mapInsert pd.projects i (p.create_task fid n (d.getD "")).2) j =
          mapGet pd.projects j)) := by
  constructor
  · intro h
    simp [RuntimeConfig.run_project_command, hs, h]
  · intro p hpp
    refine ⟨rfl, ?_, ?_, rfl, ?_, ?_, ?_, ?_⟩
    · simp [RuntimeConfig.run_project_command, hs, hpp]
    · exact mapGet_mapInsert_self p.tasks fid _
    · simp [ProjectTask.new, ProjectTaskStatus.from_str]
    · exact fun h => length_mapInsert_fresh p.tasks fid _ h
    · exact fun j hj => mapGet_mapInsert_ne p.tasks fid _ j hj
    · exact fun j hj => mapGet_mapInsert_ne pd.projects i _ j hj

/-- C8, witness: the theorem applied with the project present and with it
absent. -/
theorem create_task_spec_witness :
    Uuid.parse_str "0" = some 0 ∧
    mapGet (ProjectData.mk [(0, Project.new 0 "Alpha" "desc A")]).projects 0 =
      some (Project.new 0 "Alpha" "desc A") ∧
    ((Project.new 0 "Alpha" "desc A").create_task 1 "T1" ((none : Option String).getD "")).1 = 1 :=
  ⟨by decide, by decide,
   ((create_task_spec (ProjectData.mk [(0, Project.new 0 "Alpha" "desc A")])
      1 0 "0" "T1" none (by decide)).2 (Project.new 0 "Alpha" "desc A")
      (by decide)).1⟩

/-- C5: `update_project` / `update_task` have partial-patch semantics: with
only one of name/description supplied, exactly the supplied field is set and
the omitted field is unchanged, as are the entity's id, a project's task map
and a task's type and status; every other project and task is unchanged; with
the target absent the command fails with `NotFound` (project, or distinctly
task for `update_task`) and nothing is persisted. -/
theorem update_partial_patch (cfg : Config) (pd : ProjectData) (fid i t : Uuid)
    (s ts nm ds : String) (hs : Uuid.parse_str s = some i)
    (hts : Uuid.parse_str ts = some t) :
    (pd.get_project i = none →
      RuntimeConfig.run_project_command pd fid (ProjectCommand.update s (some nm) none) =
        Outcome.err (CmdError.notFound "Project not found") ∧
      RuntimeConfig.run_project_command pd fid (ProjectCommand.update s none (some ds)) =
        Outcome.err (CmdError.notFound "Project not found") ∧
      RuntimeConfig.run_project_command pd fid (ProjectCommand.updateTask s ts (some nm) none) =
        Outcome.err (CmdError.notFound "Project not found") ∧
      (RuntimeConfig.run cfg pd fid (CmdNamespace.project (ProjectCommand.update s (some nm) none))).2 = none) ∧
    (∀ p, pd.get_project i = some p →
      RuntimeConfig.run_project_command pd fid (ProjectCommand.update s (some nm) none) =
        Outcome.ok { projects := mapInsert pd.projects i { p with name := nm } } ∧
      mapGet (mapInsert pd.projects i { p with name := nm }) i = some { p with name := nm } ∧
      Project.name { p with name := nm } = nm ∧
      Project.description { p with name := nm } = p.description ∧
      Project.id { p with name := nm } = p.id ∧
      Project.tasks { p with name := nm } = p.tasks ∧
      (∀ j, j ≠ i → mapGet (mapInsert pd.projects i { p with name := nm }) j = mapGet pd.projects j)) ∧
    (∀ p, pd.get_project i = some p →
      RuntimeConfig.run_project_command pd fid (ProjectCommand.update s none (some ds)) =
        Outcome.ok { projects := mapInsert pd.projects i { p with description := ds } } ∧
      Project.description { p with description := ds } = ds ∧
      Project.name { p with description := ds } = p.name ∧
      Project.id { p with description := ds } = p.id ∧
      Project.tasks { p with description := ds } = p.tasks) ∧
    (∀ p, pd.get_project i = some p → mapGet p.tasks t = none →
      RuntimeConfig.run_project_command pd fid (ProjectCommand.updateTask s ts (some nm) none) =
        Outcome.err (CmdError.notFound "Task not found") ∧
      (RuntimeConfig.run cfg pd fid (CmdNamespace.project (ProjectCommand.updateTask s ts (some nm) none))).2 = none) ∧
    (∀ p task, pd.get_project i = some p → mapGet p.tasks t = some task →
      RuntimeConfig.run_project_command pd fid (ProjectCommand.updateTask s ts (some nm) none) =
        Outcome.ok { projects := mapInsert pd.projects i { p with tasks := mapInsert p.tasks t { task with name := nm } } } ∧
      ProjectTask.name { task with name := nm } = nm ∧
      ProjectTask.description { task with name := nm } = task.description ∧
      ProjectTask.id { task with name := nm } = task.id ∧
      ProjectTask.type_ { task with name := nm } = task.type_ ∧
      ProjectTask.status { task with name := nm } = task.status ∧
      (∀ j, j ≠ t → mapGet (mapInsert p.tasks t { task with name := nm }) j = mapGet p.tasks j) ∧
      (∀ j, j ≠ i → mapGet (mapInsert pd.projects i { p with tasks := mapInsert p.tasks t { task with name := nm } }) j = mapGet pd.projects j)) ∧
    (∀ p task, pd.get_project i = some p → mapGet p.tasks t = some task →
      RuntimeConfig.run_project_command pd fid (ProjectCommand.updateTask s ts none (some ds)) =
        Outcome.ok { projects := mapInsert pd.projects i { p with tasks := mapInsert p.tasks t { task with description := ds } } } ∧
      ProjectTask.description { task with description := ds } = ds ∧
      ProjectTask.name { task with description := ds } = task.name ∧
      ProjectTask.id { task with description := ds } = task.id ∧
      ProjectTask.type_ { task with description := ds } = task.type_ ∧
      ProjectTask.status { task with description := ds } = task.status) := by
  refine ⟨?_, ?_, ?_, ?_, ?_, ?_⟩
  · intro h
    refine ⟨?_, ?_, ?_, ?_⟩ <;>
      simp [RuntimeConfig.run, RuntimeConfig.run_project_command, hs, hts, h]
  · intro p hpp
    refine ⟨?_, mapGet_mapInsert_self _ _ _, rfl, rfl, rfl, rfl,
      fun j hj => mapGet_mapInsert_ne _ _ _ _ hj⟩
    simp [RuntimeConfig.run_project_command, hs, hpp]
  · intro p hpp
    refine ⟨?_, rfl, rfl, rfl, rfl⟩
    simp [RuntimeConfig.run_project_command, hs, hpp]
  · intro p hpp htt
    constructor
    · simp [RuntimeConfig.run_project_command, hs, hts, hpp, htt]
    · simp [RuntimeConfig.run, RuntimeConfig.run_project_command, hs, hts, hpp, htt]
  · intro p task hpp htt
    refine ⟨?_, rfl, rfl, rfl, rfl, rfl,
      fun j hj => mapGet_mapInsert_ne _ _ _ _ hj,
      fun j hj => mapGet_mapInsert_ne _ _ _ _ hj⟩
    simp [RuntimeConfig.run_project_command, hs, hts, hpp, htt]
  · intro p task hpp htt
    refine ⟨?_, rfl, rfl, rfl, rfl, rfl⟩
    simp [RuntimeConfig.run_project_command, hs, hts, hpp, htt]

/-- C5, witness: the theorem applied to a name-only project update and a
description-only task update on a concrete collection. -/
theorem update_partial_patch_witness :
    Uuid.parse_str "0" = some 0 ∧
    Uuid.parse_str "1" = some 1 ∧
    samplePD.get_project 0 = some sampleProject ∧
    mapGet sampleProject.tasks 1 = some sampleTask ∧
    RuntimeConfig.run_project_command samplePD 9 (ProjectCommand.update "0" (some "B") none) =
      Outcome.ok { projects := mapInsert samplePD.projects 0 { sampleProject with name := "B" } } ∧
    RuntimeConfig.run_project_command samplePD 9 (ProjectCommand.updateTask "0" "1" none (some "D")) =
      Outcome.ok { projects := mapInsert samplePD.projects 0 { sampleProject with tasks := mapInsert sampleProject.tasks 1 { sampleTask with description := "D" } } } := by
  have h := update_partial_patch Config.default samplePD 9 0 1 "0" "1" "B" "D"
    (by decide) (by decide)
  exact ⟨by decide, by decide, by decide, by decide,
    (h.2.1 sampleProject (by decide)).1,
    (h.2.2.2.2.2 sampleProject sampleTask (by decide) (by decide)).1⟩

/-- The persisted snapshot of a run is exactly the data of an `ok` outcome:
`RuntimeConfig::run` calls `persist` precisely after an `Ok` dispatch. -/
theorem run_snd_eq (cfg : Config) (pd : ProjectData) (fid : Uuid)
    (ns : CmdNamespace) :
    (RuntimeConfig.run cfg pd fid ns).2 =
      (match (RuntimeConfig.run cfg pd fid ns).1 with
       | Outcome.ok x => some x.2
       | Outcome.err _ => none
       | Outcome.panic _ => none) := by
  cases ns with
  | project cmd =>
    cases hr : RuntimeConfig.run_project_command pd fid cmd <;>
      simp [RuntimeConfig.run, hr]
  | config cmd => simp [RuntimeConfig.run]

/-- C4, counterexample to the claim as stated: `project list` is a
non-mutating command, yet on its success the full snapshot is persisted —
persistence is not restricted to mutating commands. -/
theorem run_persists_after_nonmutating_list :
    CmdNamespace.isMutatingSpec (CmdNamespace.project ProjectCommand.list) = false ∧
    (RuntimeConfig.run Config.default { projects := [] } 0 (CmdNamespace.project ProjectCommand.list)).1 =
      Outcome.ok (Config.default, { projects := [] }) ∧
    (RuntimeConfig.run Config.default { projects := [] } 0 (CmdNamespace.project ProjectCommand.list)).2 =
      some { projects := [] } := by
  exact ⟨rfl, rfl, rfl⟩

/-- C4 (amended): the full `ProjectData` snapshot is persisted if and only if
the dispatched command succeeds — whether or not it is a mutating command —
and what is persisted is exactly the resulting snapshot; when the command
fails (a returned error or a panic), nothing is persisted, leaving the
on-disk state as it was before the invocation. -/
theorem run_persist_iff_success (cfg : Config) (pd : ProjectData) (fid : Uuid)
    (ns : CmdNamespace) :
    (∀ c' pd', (RuntimeConfig.run cfg pd fid ns).1 = Outcome.ok (c', pd') →
      (RuntimeConfig.run cfg pd fid ns).2 = some pd') ∧
    (∀ e, (RuntimeConfig.run cfg pd fid ns).1 = Outcome.err e →
      (RuntimeConfig.run cfg pd fid ns).2 = none) ∧
    (∀ m, (RuntimeConfig.run cfg pd fid ns).1 = Outcome.panic m →
      (RuntimeConfig.run cfg pd fid ns).2 = none) ∧
    (∀ snap, (RuntimeConfig.run cfg pd fid ns).2 = some snap →
      ∃ c', (RuntimeConfig.run cfg pd fid ns).1 = Outcome.ok (c', snap)) := by
  have hrw := run_snd_eq cfg pd fid ns
  refine ⟨?_, ?_, ?_, ?_⟩
  · intro c' pd' h
    rw [hrw, h]
  · intro e h
    rw [hrw, h]
  · intro m h
    rw [hrw, h]
  · intro snap h
    rw [hrw] at h
    cases ho : (RuntimeConfig.run cfg pd fid ns).1 with
    | ok x =>
      obtain ⟨c', pd'⟩ := x
      rw [ho] at h
      simp only [Option.some.injEq] at h
      subst h
      exact ⟨c', rfl⟩
    | err e =>
      rw [ho] at h
      simp at h
    | panic m =>
      rw [ho] at h
      simp at h

/-- C4, witness: the amended theorem applied to a successful `config set`
invocation. -/
theorem run_persist_iff_success_witness :
    (RuntimeConfig.run Config.default (ProjectData.mk []) 0 (CmdNamespace.config (ConfigCommand.set "a" "b"))).1 =
      Outcome.ok (Config.default, ProjectData.mk []) ∧
    (RuntimeConfig.run Config.default (ProjectData.mk []) 0 (CmdNamespace.config (ConfigCommand.set "a" "b"))).2 =
      some (ProjectData.mk []) := by
  have h := (run_persist_iff_success Config.default (ProjectData.mk []) 0
    (CmdNamespace.config (ConfigCommand.set "a" "b"))).1
  exact ⟨by decide, h Config.default (ProjectData.mk []) (by decide)⟩

/-- C9: the `config set` command always succeeds and acknowledges the request
(it prints the key/value line), but it never changes the in-memory
configuration — `persistence_mode` afterwards is exactly what it was before —
and the run persists only the (unchanged) projects snapshot, never a new
configuration value. -/
theorem config_set_noop (cfg : Config) (pd : ProjectData) (fid : Uuid)
    (k v : String) :
    (RuntimeConfig.run_config_command cfg (ConfigCommand.set k v)).1 = cfg ∧
    ((RuntimeConfig.run_config_command cfg (ConfigCommand.set k v)).1).persistence_mode = cfg.persistence_mode ∧
    (RuntimeConfig.run_config_command cfg (ConfigCommand.set k v)).2 =
      ["Setting config key: " ++ k ++ " to value: " ++ v] ∧
    (RuntimeConfig.run cfg pd fid (CmdNamespace.config (ConfigCommand.set k v))).1 =
      Outcome.ok (cfg, pd) ∧
    (RuntimeConfig.run cfg pd fid (CmdNamespace.config (ConfigCommand.set k v))).2 = some pd := by
  exact ⟨rfl, rfl, rfl, rfl, rfl⟩

/-- C10: every command whose dispatch completes successfully — the
non-mutating `project list`, `project list-tasks`, `config get` and
`config set` included — hands the current `ProjectData` snapshot to
`write_data` (rewriting the projects file) before the run returns success. -/
theorem run_success_persists (cfg : Config) (pd : ProjectData) (fid : Uuid)
    (ns : CmdNamespace) (c' : Config) (pd' : ProjectData)
    (h : (RuntimeConfig.run cfg pd fid ns).1 = Outcome.ok (c', pd')) :
    (RuntimeConfig.run cfg pd fid ns).2 = some pd' := by
  rw [run_snd_eq, h]

/-- C10, witness: the theorem applied to a successful non-mutating
`config get` invocation. -/
theorem run_success_persists_witness :
    (RuntimeConfig.run Config.default (ProjectData.mk []) 0 (CmdNamespace.config (ConfigCommand.get "persistence_mode"))).1 =
      Outcome.ok (Config.default, ProjectData.mk []) ∧
    (RuntimeConfig.run Config.default (ProjectData.mk []) 0 (CmdNamespace.config (ConfigCommand.get "persistence_mode"))).2 =
      some (ProjectData.mk []) :=
  ⟨by decide,
   run_success_persists Config.default (ProjectData.mk []) 0
     (CmdNamespace.config (ConfigCommand.get "persistence_mode"))
     Config.default (ProjectData.mk []) (by decide)⟩

end TaskManager
